import Mathlib

/-!
Model of the go-json-rest JWT middleware (src/auth_jwt.go), together with
theorems checking the specification claims against it.

The middleware configuration, the verification gate (middlewareImpl), the
login and refresh handlers, and the header extraction of parseToken are
translated directly from the source. The external jwt library (parse, sign)
and the generic JSON decoding are not part of the repository; those parts
are modelled from the spec, with doc comments saying so, as a perfect MAC
over the serialized claims and a decoded-JSON view of the wire format.
Time is the Unix-seconds integer the source works with, passed explicitly
as a parameter named now.
-/

namespace JwtAuth

/-- Signing algorithms supported by the configuration (src lines 21-23). -/
inductive Alg where
  | HS256
  | HS384
  | HS512
deriving DecidableEq

/-- A secret signing key, a byte sequence (src line 26). -/
abbrev KeyBytes := List Nat

/-- Dynamic Go values as stored in the untyped claims map
(map from string to interface values): the nil interface, a string, an
int64, or a float64. All numeric claims in this code are exact integer
timestamps, so the float64 payload is kept as an Int; only the dynamic
type tag matters for the type assertions. -/
inductive GoVal where
  | vNil
  | vStr (s : String)
  | vInt (n : Int)
  | vFloat (n : Int)
deriving DecidableEq

/-- The untyped claims map, token.Claims in the source. -/
abbrev Claims := List (String × GoVal)

/-- Go map read: a missing key reads as the nil interface value,
indistinguishable from a stored nil. -/
def Claims.get : Claims → String → GoVal
  | [], _ => .vNil
  | (k', v) :: rest, k => if k' == k then v else Claims.get rest k

/-- Go map assignment. -/
def Claims.set (c : Claims) (k : String) (v : GoVal) : Claims :=
  (k, v) :: c.filter (fun p => p.1 != k)

/-- Unchecked Go type assertion .(string); none models the runtime panic
taken when the dynamic type is not string. -/
def GoVal.assertString : GoVal → Option String
  | .vStr s => some s
  | _ => none

/-- Unchecked Go type assertion .(int64); none models the runtime panic. -/
def GoVal.assertInt64 : GoVal → Option Int
  | .vInt n => some n
  | _ => none

/-- Go type assertion .(float64) in the comma-ok form used by the delegated
expiry check of the jwt library. -/
def GoVal.assertFloat64 : GoVal → Option Int
  | .vFloat n => some n
  | _ => none

/-- Modelled from the spec: section 6 says claims travel as a JSON object,
and generic Go JSON decoding yields float64 for every number, so an int64
claim written at issuance is read back under the float64 dynamic type. -/
def normalizeVal : GoVal → GoVal
  | .vInt n => .vFloat n
  | v => v

/-- JSON round trip of a claims map: every numeric value becomes float64. -/
def normalize (c : Claims) : Claims := c.map (fun p => (p.1, normalizeVal p.2))

/-- Modelled from the spec: section 4.1 describes the signature as a keyed
MAC over the serialized header and claims. It is modelled as a perfect MAC:
two signatures coincide exactly when algorithm, key and signed payload
coincide. -/
structure Sig where
  alg : Alg
  key : KeyBytes
  payload : Claims
deriving DecidableEq

/-- Produce the MAC for a payload under an algorithm and key. -/
def sign (a : Alg) (k : KeyBytes) (payload : Claims) : Sig := ⟨a, k, payload⟩

/-- An in-memory jwt token under construction: jwt.New followed by claim
assignments (src lines 111-116, 160-163). -/
structure JwtToken where
  alg : Alg
  claims : Claims

/-- Decoded view of a wire-format token string (spec section 6): the header
algorithm, the JSON claims (numbers carrying float64 after decoding), and
the signature over those claims. -/
structure WireToken where
  alg : Alg
  claims : Claims
  sig : Sig
deriving DecidableEq

/-- token.SignedString(key) (src lines 117 and 164): serialize the claims to
JSON and sign them under the header algorithm with the given key. Modelled
from the spec: issue only fails on a signing-method implementation error,
treated as impossible here (spec section 4.1). -/
def JwtToken.signedString (t : JwtToken) (k : KeyBytes) : WireToken :=
  ⟨t.alg, normalize t.claims, sign t.alg k (normalize t.claims)⟩

/-- Errors of the token parse path (src lines 127-142 and the jwt library). -/
inductive ParseError where
  | emptyHeader
  | invalidHeader
  | malformed
  | invalidSignature
  | expired
deriving DecidableEq

/-- Modelled from the spec: jwt.Parse as invoked at src lines 139-141 with a
key callback returning the configured key without inspecting the token.
Per the wire format of spec section 6 the header names the algorithm, and
the library resolves the verification method from that header field; the
configured algorithm is never consulted. On a good signature the delegated
expiry check of spec section 4.3 step 3 requires exp strictly greater than
now whenever an exp number is present. Like the library, the decoded token
is returned alongside any verification error. -/
def jwtParse (w : WireToken) (key : KeyBytes) (now : Int) :
    JwtToken × Option ParseError :=
  (⟨w.alg, normalize w.claims⟩,
    if w.sig = sign w.alg key w.claims then
      match ((normalize w.claims).get "exp").assertFloat64 with
      | some e => if now < e then none else some .expired
      | none => none
    else some .invalidSignature)

/-- View of a token string: garbage that the wire-format split rejects, or a
well-formed three-segment token (spec section 6). -/
inductive TokenStr where
  | garbage (s : String)
  | wire (w : WireToken)
deriving DecidableEq

/-- View of the authorization header of a request: absent (the empty
header), present but failing the Bearer-form check, or a bearer credential
carrying a token string. -/
inductive AuthHeaderView where
  | absent
  | notBearer (s : String)
  | bearer (t : TokenStr)
deriving DecidableEq

/-- An inbound request, reduced to the data this middleware reads. -/
structure Request where
  auth : AuthHeaderView
deriving DecidableEq

/-- parseToken (src lines 127-142): reject an empty authorization header,
reject a header not of the Bearer form, and hand the token string to
jwt.Parse with a callback returning only the key. On a header failure the
returned token is nil (none); the string-level Bearer check itself is
parseAuthHeaderToken below, the header arriving here pre-classified. -/
def parseToken (req : Request) (key : KeyBytes) (now : Int) :
    Option JwtToken × Option ParseError :=
  match req.auth with
  | .absent => (none, some .emptyHeader)
  | .notBearer _ => (none, some .invalidHeader)
  | .bearer (.garbage _) => (none, some .malformed)
  | .bearer (.wire w) => (some (jwtParse w key now).1, (jwtParse w key now).2)

/-- strings.SplitN(s, " ", 2) at src line 134, on the character list: the
part before the first space and, when a space occurs at all, the whole
remainder after that first space. -/
def splitN2 : List Char → List Char × Option (List Char)
  | [] => ([], none)
  | c :: cs =>
    if c = ' ' then ([], some cs)
    else (c :: (splitN2 cs).1, (splitN2 cs).2)

/-- The header check of parseToken at the string level (src lines 128-137):
an empty header is rejected; otherwise the header splits at the first space
into two parts and the first part must be exactly Bearer, case-sensitively;
the extracted token string is everything after that first space. -/
def parseAuthHeaderToken (authHeader : String) : Option String :=
  if authHeader = "" then none
  else
    match splitN2 authHeader.data with
    | (p, some rest) => if p = "Bearer".data then some (String.mk rest) else none
    | (_, none) => none

/-- JWTMiddleware configuration (src lines 17-42). Durations are integer
seconds, matching the Unix-seconds claim arithmetic of the source. -/
structure JWTMiddleware where
  Realm : String
  SigningAlgorithm : Alg
  Key : KeyBytes
  Timeout : Int
  MaxRefresh : Int
  Authenticator : String → String → Bool
  Authorizator : String → Request → Bool

/-- An HTTP error response: status code, the WWW-Authenticate header value,
and the body. -/
structure HttpResponse where
  status : Nat
  wwwAuthenticate : String
  body : String
deriving DecidableEq

/-- unauthorized (src lines 174-177): the one fixed 401 response, carrying
only the configured realm. -/
def JWTMiddleware.unauthorized (mw : JWTMiddleware) : HttpResponse :=
  ⟨401, "Basic realm=" ++ mw.Realm, "Not Authorized"⟩

/-- Result of one handler invocation: an error response written, a token
reply written, the wrapped handler invoked with REMOTE_USER set to the
given identity, or a runtime panic (nil dereference or failed unchecked
type assertion). -/
inductive Outcome where
  | response (r : HttpResponse)
  | tokenReply (w : WireToken)
  | invokesHandler (remoteUser : String)
  | panicked
deriving DecidableEq

/-- middlewareImpl (src lines 71-88): parse the token, answer unauthorized
on a parse error, read the id claim with an unchecked string assertion,
consult the authorizator, and on success invoke the wrapped handler with
REMOTE_USER set. -/
def JWTMiddleware.middlewareImpl (mw : JWTMiddleware) (req : Request) (now : Int) :
    Outcome :=
  match (parseToken req mw.Key now).2 with
  | some _ => .response mw.unauthorized
  | none =>
    match (parseToken req mw.Key now).1 with
    | none => .panicked
    | some tok =>
      match (tok.claims.get "id").assertString with
      | none => .panicked
      | some id =>
        if mw.Authorizator id req then .invokesHandler id
        else .response mw.unauthorized

/-- Decoded login request body, or a payload that DecodeJsonPayload
rejects (src lines 90-104). -/
inductive LoginPayload where
  | bad
  | ok (username password : String)

/-- The claim set built by LoginHandler (src lines 111-116): id is the
username, exp is now plus the timeout, and orig_iat is now exactly when
MaxRefresh is nonzero. -/
def JWTMiddleware.loginClaims (mw : JWTMiddleware) (u : String) (now : Int) :
    Claims :=
  let c := Claims.set (Claims.set [] "id" (.vStr u)) "exp" (.vInt (now + mw.Timeout))
  if mw.MaxRefresh ≠ 0 then Claims.set c "orig_iat" (.vInt now) else c

/-- LoginHandler (src lines 97-125): reject a malformed payload, consult the
authenticator, then sign and return a fresh token built from loginClaims. -/
def JWTMiddleware.LoginHandler (mw : JWTMiddleware) (p : LoginPayload) (now : Int) :
    Outcome :=
  match p with
  | .bad => .response mw.unauthorized
  | .ok u pw =>
    if mw.Authenticator u pw then
      .tokenReply (JwtToken.signedString ⟨mw.SigningAlgorithm, mw.loginClaims u now⟩ mw.Key)
    else .response mw.unauthorized

/-- RefreshHandler (src lines 151-172): parse the token but never consult
the returned error, dereference the token (a nil dereference when parsing
failed before the wire split), read orig_iat with an unchecked int64
assertion, reject when origIat is below now, and otherwise reissue a token
reusing id and orig_iat with a fresh exp. MaxRefresh is never read here. -/
def JWTMiddleware.RefreshHandler (mw : JWTMiddleware) (req : Request) (now : Int) :
    Outcome :=
  match (parseToken req mw.Key now).1 with
  | none => .panicked
  | some tok =>
    match (tok.claims.get "orig_iat").assertInt64 with
    | none => .panicked
    | some origIat =>
      if origIat < now then .response mw.unauthorized
      else
        .tokenReply (JwtToken.signedString
          ⟨mw.SigningAlgorithm,
            Claims.set
              (Claims.set (Claims.set [] "id" (tok.claims.get "id")) "exp"
                (.vInt (now + mw.Timeout)))
              "orig_iat" (.vInt origIat)⟩
          mw.Key)

/-- Modelled from the spec: section 4.4 step 3 permits refresh while
originalIssuedAt plus maxRefreshWindow is still above now. Spec-side
definition, kept for comparison against the guard of RefreshHandler. -/
abbrev specRefreshWithinWindow (origIat maxRefresh now : Int) : Prop :=
  origIat + maxRefresh > now

/-- Concrete configuration used by the witnesses: realm test, HS256, a
three-byte key, one-hour timeout, one-hour refresh window. -/
def mwEx : JWTMiddleware :=
  ⟨"test", .HS256, [1, 2, 3], 3600, 3600,
    fun u p => u == "admin" && p == "pw",
    fun _ _ => true⟩

/-- A second concrete configuration with refresh disabled entirely. -/
def mwEx0 : JWTMiddleware :=
  ⟨"test", .HS256, [1, 2, 3], 3600, 0,
    fun u p => u == "admin" && p == "pw",
    fun _ _ => true⟩

/-- A correctly signed token for bob whose exp lies at Unix second 10. -/
def wExpired : WireToken :=
  JwtToken.signedString ⟨.HS256, [("id", .vStr "bob"), ("exp", .vInt 10)]⟩ mwEx.Key

/-- A correctly signed token carrying no id claim at all. -/
def wNoId : WireToken :=
  JwtToken.signedString ⟨.HS256, [("exp", .vInt 100)]⟩ mwEx.Key

/-- A token correctly signed with the configured key but under HS384 while
the configuration pins HS256. -/
def wAlgSub : WireToken :=
  JwtToken.signedString ⟨.HS384, [("id", .vStr "alice"), ("exp", .vInt 99999)]⟩ mwEx.Key

/-- A correctly signed token with orig_iat 990, still inside the one-hour
refresh window at now equal to 1000. -/
def wInWindow : WireToken :=
  JwtToken.signedString
    ⟨.HS256, [("id", .vStr "alice"), ("exp", .vInt 500), ("orig_iat", .vInt 990)]⟩ mwEx.Key

/-! Helper lemmas shared by the claim theorems. -/

theorem data_append (a b : String) : (a ++ b).data = a.data ++ b.data := by
  cases a
  cases b
  rfl

theorem string_eq_of_data (a b : String) (h : a.data = b.data) : a = b := by
  cases a
  cases b
  exact congrArg String.mk h

theorem get_normalize (c : Claims) (k : String) :
    (normalize c).get k = normalizeVal (c.get k) := by
  induction c with
  | nil => rfl
  | cons p rest ih =>
    obtain ⟨k', v⟩ := p
    cases hb : k' == k
    · simpa [normalize, Claims.get, hb] using ih
    · simp [normalize, Claims.get, hb]

theorem assertInt64_normalizeVal (v : GoVal) : (normalizeVal v).assertInt64 = none := by
  cases v <;> rfl

theorem refresh_origIat_read (c : Claims) :
    ((normalize c).get "orig_iat").assertInt64 = none := by
  rw [get_normalize]
  exact assertInt64_normalizeVal _

theorem refresh_wire_aux (mw : JWTMiddleware) (w : WireToken) (now : Int) :
    mw.RefreshHandler ⟨.bearer (.wire w)⟩ now = .panicked := by
  unfold JWTMiddleware.RefreshHandler
  show (match ((normalize w.claims).get "orig_iat").assertInt64 with
    | none => Outcome.panicked
    | some origIat =>
      if origIat < now then Outcome.response mw.unauthorized
      else Outcome.tokenReply (JwtToken.signedString
        ⟨mw.SigningAlgorithm,
          Claims.set
            (Claims.set (Claims.set [] "id" ((normalize w.claims).get "id")) "exp"
              (.vInt (now + mw.Timeout)))
            "orig_iat" (.vInt origIat)⟩
        mw.Key)) = Outcome.panicked
  rw [refresh_origIat_read]

theorem splitN2_append (l₁ l₂ : List Char) (h : ' ' ∉ l₁) :
    splitN2 (l₁ ++ ' ' :: l₂) = (l₁, some l₂) := by
  induction l₁ with
  | nil => simp [splitN2]
  | cons c cs ih =>
    have hc : ¬(c = ' ') := fun e => h (by rw [e]; exact List.mem_cons_self _ _)
    have hcs : ' ' ∉ cs := fun hm => h (List.mem_cons_of_mem _ hm)
    simp [splitN2, hc, ih hcs]

theorem splitN2_eq_append (cs : List Char) :
    ∀ p rest, splitN2 cs = (p, some rest) → cs = p ++ ' ' :: rest := by
  induction cs with
  | nil =>
    intro p rest h
    simp [splitN2] at h
  | cons c cs ih =>
    intro p rest h
    simp only [splitN2] at h
    by_cases hc : c = ' '
    · rw [if_pos hc] at h
      injection h with h1 h2
      injection h2 with h2
      rw [← h1, hc, h2]
      rfl
    · rw [if_neg hc] at h
      injection h with h1 h2
      have hsplit : splitN2 cs = ((splitN2 cs).1, some rest) := by
        rw [← h2]
      have hcs := ih (splitN2 cs).1 rest hsplit
      rw [← h1, List.cons_append, ← hcs]

theorem bearer_data : ("Bearer " : String).data = ['B', 'e', 'a', 'r', 'e', 'r', ' '] := by
  decide

theorem bearer_word_data : ("Bearer" : String).data = ['B', 'e', 'a', 'r', 'e', 'r'] := by
  decide

theorem parseAuthHeaderToken_iff (h t : String) :
    parseAuthHeaderToken h = some t ↔ h = "Bearer " ++ t := by
  constructor
  · intro hp
    unfold parseAuthHeaderToken at hp
    by_cases he : h = ""
    · rw [if_pos he] at hp
      exact absurd hp (by simp)
    · rw [if_neg he] at hp
      split at hp
      · rename_i p rest heq
        by_cases hb : p = "Bearer".data
        · rw [if_pos hb] at hp
          injection hp with hp
          have hd := splitN2_eq_append h.data p rest heq
          rw [hb] at hd
          apply string_eq_of_data
          rw [data_append, hd, bearer_data, bearer_word_data, ← hp]
          rfl
        · rw [if_neg hb] at hp
          exact absurd hp (by simp)
      · exact absurd hp (by simp)
  · intro he
    subst he
    obtain ⟨d⟩ := t
    unfold parseAuthHeaderToken
    have hne : ("Bearer " ++ String.mk d) ≠ "" := by
      intro hx
      have h0 := congrArg String.data hx
      rw [data_append, bearer_data] at h0
      simp at h0
    rw [if_neg hne]
    have hsp : splitN2 ("Bearer " ++ String.mk d).data = ("Bearer".data, some d) := by
      rw [data_append, bearer_data, bearer_word_data]
      show splitN2 (['B', 'e', 'a', 'r', 'e', 'r'] ++ ' ' :: d) = _
      exact splitN2_append _ _ (by decide)
    rw [hsp]
    simp

theorem loginClaims_pos (mw : JWTMiddleware) (u : String) (now : Int)
    (h : mw.MaxRefresh ≠ 0) :
    mw.loginClaims u now
      = [("orig_iat", .vInt now), ("exp", .vInt (now + mw.Timeout)), ("id", .vStr u)] := by
  simp only [JWTMiddleware.loginClaims]
  rw [if_pos h]
  rfl

theorem loginClaims_zero (mw : JWTMiddleware) (u : String) (now : Int)
    (h : mw.MaxRefresh = 0) :
    mw.loginClaims u now
      = [("exp", .vInt (now + mw.Timeout)), ("id", .vStr u)] := by
  simp only [JWTMiddleware.loginClaims]
  rw [if_neg (fun hn => hn h)]
  rfl

/-! Theorems for the specification claims. -/

/-- Claim C1. The spec requires the refresh flow to succeed exactly while
originalIssuedAt plus maxRefreshWindow exceeds now; the code diverges.
Concretely: orig_iat 990, MaxRefresh 3600, now 1000 lies inside the window
per the spec, yet the handler panics on the unchecked int64 assertion
(every JSON-decoded number is float64), and the guard at src line 155
compares origIat against now alone, never adding MaxRefresh, so the refresh
does not succeed. -/
theorem c1_inwindow_refresh_not_issued :
    specRefreshWithinWindow 990 mwEx.MaxRefresh 1000 ∧
    mwEx.RefreshHandler ⟨.bearer (.wire wInWindow)⟩ 1000 = .panicked :=
  ⟨by decide, by decide⟩

/-- Claim C2. A refresh request whose token fails to parse should get the
Unauthorized response; instead the code never consults the parse error of
parseToken, dereferences the nil token at src line 153 and panics. Shown on
the request with no authorization header. -/
theorem c2_refresh_parse_failure_panics :
    mwEx.RefreshHandler ⟨.absent⟩ 0 = .panicked ∧
    Outcome.panicked ≠ .response mwEx.unauthorized :=
  ⟨by decide, by decide⟩

/-- Claim C3. The spec pins the signing algorithm; the code does not: the
key callback of parseToken (src lines 139-141) returns the key without ever
consulting SigningAlgorithm, so a token whose header names HS384, correctly
signed with the configured key, passes verification under a configuration
pinning HS256 and reaches the wrapped handler. -/
theorem c3_algorithm_substitution_accepted :
    mwEx.SigningAlgorithm = .HS256 ∧ wAlgSub.alg = .HS384 ∧
    mwEx.middlewareImpl ⟨.bearer (.wire wAlgSub)⟩ 0 = .invokesHandler "alice" :=
  ⟨rfl, rfl, by decide⟩

/-- Claim C4. In the refresh flow, orig_iat is read with an unchecked int64
type assertion: for every token reconstructed from the wire format the
JSON-decoded numbers carry float64 and a missing claim reads as nil, so the
access panics for every such token instead of answering Unauthorized. -/
theorem c4_refresh_origiat_assertion_panics (mw : JWTMiddleware) (w : WireToken)
    (now : Int) :
    mw.RefreshHandler ⟨.bearer (.wire w)⟩ now = .panicked :=
  refresh_wire_aux mw w now

/-- Witness for claim C4 at a concrete configuration and token. -/
theorem c4_refresh_origiat_assertion_panics_witness :
    mwEx.RefreshHandler ⟨.bearer (.wire wExpired)⟩ 50 = .panicked :=
  c4_refresh_origiat_assertion_panics mwEx wExpired 50

/-- Claim C5. A correctly signed token whose exp is not strictly in the
future is rejected by the verification gate with the Unauthorized response,
and the wrapped handler is not invoked. The expiry rule itself lives in the
delegated jwt library and is modelled from the spec, which requires exp
strictly greater than now. -/
theorem c5_gate_rejects_expired (mw : JWTMiddleware) (w : WireToken) (now e : Int)
    (hsig : w.sig = sign w.alg mw.Key w.claims)
    (hexp : ((normalize w.claims).get "exp").assertFloat64 = some e)
    (hle : e ≤ now) :
    mw.middlewareImpl ⟨.bearer (.wire w)⟩ now = .response mw.unauthorized := by
  have h2 : (parseToken ⟨.bearer (.wire w)⟩ mw.Key now).2 = some .expired := by
    show (if w.sig = sign w.alg mw.Key w.claims then
        match ((normalize w.claims).get "exp").assertFloat64 with
        | some e => if now < e then none else some ParseError.expired
        | none => none
      else some ParseError.invalidSignature) = some ParseError.expired
    rw [if_pos hsig, hexp]
    show (if now < e then none else some ParseError.expired) = some ParseError.expired
    rw [if_neg (not_lt.mpr hle)]
  unfold JWTMiddleware.middlewareImpl
  rw [h2]

/-- Witness for claim C5: the token for bob with exp 10 presented at now 10. -/
theorem c5_gate_rejects_expired_witness :
    mwEx.middlewareImpl ⟨.bearer (.wire wExpired)⟩ 10 = .response mwEx.unauthorized :=
  c5_gate_rejects_expired mwEx wExpired 10 10 rfl rfl (by decide)

/-- Claim C6. For credentials the authenticator accepts, the login flow
returns a single token reply signed over loginClaims, whose decoded claims
carry id equal to the identity, exp equal to now plus the timeout, and
orig_iat equal to now exactly when MaxRefresh is nonzero (absent, reading
as nil, when MaxRefresh is zero). -/
theorem c6_login_token_claims (mw : JWTMiddleware) (u pw : String) (now : Int)
    (hauth : mw.Authenticator u pw = true) :
    mw.LoginHandler (.ok u pw) now
        = .tokenReply (JwtToken.signedString ⟨mw.SigningAlgorithm, mw.loginClaims u now⟩ mw.Key) ∧
    (normalize (mw.loginClaims u now)).get "id" = .vStr u ∧
    (normalize (mw.loginClaims u now)).get "exp" = .vFloat (now + mw.Timeout) ∧
    (mw.MaxRefresh ≠ 0 → (normalize (mw.loginClaims u now)).get "orig_iat" = .vFloat now) ∧
    (mw.MaxRefresh = 0 → (normalize (mw.loginClaims u now)).get "orig_iat" = .vNil) := by
  refine ⟨?_, ?_, ?_, ?_, ?_⟩
  · simp [JWTMiddleware.LoginHandler, hauth]
  · by_cases h : mw.MaxRefresh = 0
    · rw [loginClaims_zero mw u now h]; rfl
    · rw [loginClaims_pos mw u now h]; rfl
  · by_cases h : mw.MaxRefresh = 0
    · rw [loginClaims_zero mw u now h]; rfl
    · rw [loginClaims_pos mw u now h]; rfl
  · intro h
    rw [loginClaims_pos mw u now h]
    rfl
  · intro h
    rw [loginClaims_zero mw u now h]
    rfl

/-- Witness for claim C6: the admin login under both configurations, the
one with refresh enabled and the one with refresh disabled. -/
theorem c6_login_token_claims_witness :
    (normalize (mwEx.loginClaims "admin" 0)).get "id" = .vStr "admin" ∧
    (normalize (mwEx.loginClaims "admin" 0)).get "orig_iat" = .vFloat 0 ∧
    (normalize (mwEx0.loginClaims "admin" 0)).get "orig_iat" = .vNil :=
  ⟨(c6_login_token_claims mwEx "admin" "pw" 0 rfl).2.1,
   (c6_login_token_claims mwEx "admin" "pw" 0 rfl).2.2.2.1 (by decide),
   (c6_login_token_claims mwEx0 "admin" "pw" 0 rfl).2.2.2.2 rfl⟩

/-- Claim C7. The spec has successful refreshes preserving subject and
orig_iat with a strictly increasing exp; in the code no refresh ever
succeeds: for every request and every moment, the refresh handler never
returns a token reply (every parsed token panics on the unchecked int64
assertion, a failed parse panics on the nil dereference), so no chain of
successful refreshes exists at all. -/
theorem c7_refresh_never_reissues (mw : JWTMiddleware) (req : Request) (now : Int)
    (w : WireToken) :
    mw.RefreshHandler req now ≠ .tokenReply w := by
  obtain ⟨auth⟩ := req
  cases auth with
  | absent => simp [JWTMiddleware.RefreshHandler, parseToken]
  | notBearer s => simp [JWTMiddleware.RefreshHandler, parseToken]
  | bearer t =>
    cases t with
    | garbage s => simp [JWTMiddleware.RefreshHandler, parseToken]
    | wire w0 =>
      rw [refresh_wire_aux]
      simp

/-- Witness for claim C7 at a concrete request. -/
theorem c7_refresh_never_reissues_witness :
    mwEx.RefreshHandler ⟨.bearer (.wire wNoId)⟩ 77 ≠ .tokenReply wNoId :=
  c7_refresh_never_reissues mwEx ⟨.bearer (.wire wNoId)⟩ 77 wNoId

/-- Claim C8. The bearer credential is extracted exactly from headers of the
form Bearer, one space, then the token (case-sensitively, everything after
the first space being the token), and the verification gate answers the
Unauthorized response when the header is absent or fails that form. -/
theorem c8_bearer_form :
    (∀ (h t : String), parseAuthHeaderToken h = some t ↔ h = "Bearer " ++ t) ∧
    (∀ (mw : JWTMiddleware) (now : Int),
      mw.middlewareImpl ⟨.absent⟩ now = .response mw.unauthorized) ∧
    (∀ (mw : JWTMiddleware) (s : String) (now : Int),
      mw.middlewareImpl ⟨.notBearer s⟩ now = .response mw.unauthorized) :=
  ⟨parseAuthHeaderToken_iff, fun _ _ => rfl, fun _ _ _ => rfl⟩

/-- Witness for claim C8 at concrete headers. -/
theorem c8_bearer_form_witness :
    parseAuthHeaderToken "Bearer abc" = some "abc" ∧
    mwEx.middlewareImpl ⟨.absent⟩ 0 = .response mwEx.unauthorized :=
  ⟨(c8_bearer_form.1 "Bearer abc" "abc").mpr (by decide), c8_bearer_form.2.1 mwEx 0⟩

/-- Claim C9. Every failure response written by the verification gate, the
login flow or the refresh flow is the single fixed response of
unauthorized: status 401 with the WWW-Authenticate value naming only the
realm, carrying no information about which check failed. -/
theorem c9_uniform_failure_response (mw : JWTMiddleware) (now : Int) :
    (∀ req r, mw.middlewareImpl req now = .response r → r = mw.unauthorized) ∧
    (∀ p r, mw.LoginHandler p now = .response r → r = mw.unauthorized) ∧
    (∀ req r, mw.RefreshHandler req now = .response r → r = mw.unauthorized) ∧
    mw.unauthorized = ⟨401, "Basic realm=" ++ mw.Realm, "Not Authorized"⟩ := by
  refine ⟨?_, ?_, ?_, rfl⟩
  · intro req r h
    unfold JWTMiddleware.middlewareImpl at h
    split at h
    · injection h with h
      exact h.symm
    · split at h
      · exact absurd h (by simp)
      · split at h
        · exact absurd h (by simp)
        · split at h
          · exact absurd h (by simp)
          · injection h with h
            exact h.symm
  · intro p r h
    cases p with
    | bad =>
      simp only [JWTMiddleware.LoginHandler] at h
      injection h with h
      exact h.symm
    | ok u pw =>
      simp only [JWTMiddleware.LoginHandler] at h
      split at h
      · exact absurd h (by simp)
      · injection h with h
        exact h.symm
  · intro req r h
    unfold JWTMiddleware.RefreshHandler at h
    split at h
    · exact absurd h (by simp)
    · split at h
      · exact absurd h (by simp)
      · split at h
        · injection h with h
          exact h.symm
        · exact absurd h (by simp)

/-- Witness for claim C9: a concrete failure response of the gate and the
concrete shape of the uniform response. -/
theorem c9_uniform_failure_response_witness :
    mwEx.middlewareImpl ⟨.bearer (.garbage "zzz")⟩ 0 = .response mwEx.unauthorized ∧
    mwEx.unauthorized = ⟨401, "Basic realm=test", "Not Authorized"⟩ :=
  ⟨rfl, (c9_uniform_failure_response mwEx 0).2.2.2⟩

/-- Claim C10. In the verification gate, once a token passes signature and
expiry verification, the id claim is read with an unchecked string type
assertion: whenever the verified claims carry no string under id (missing
claim or non-string value), the gate panics instead of answering
Unauthorized. -/
theorem c10_gate_id_assertion_panics (mw : JWTMiddleware) (w : WireToken) (now : Int)
    (h2 : (parseToken ⟨.bearer (.wire w)⟩ mw.Key now).2 = none)
    (hid : ((normalize w.claims).get "id").assertString = none) :
    mw.middlewareImpl ⟨.bearer (.wire w)⟩ now = .panicked := by
  unfold JWTMiddleware.middlewareImpl
  rw [h2]
  show (match ((normalize w.claims).get "id").assertString with
    | none => Outcome.panicked
    | some id =>
      if mw.Authorizator id ⟨.bearer (.wire w)⟩ then Outcome.invokesHandler id
      else Outcome.response mw.unauthorized) = Outcome.panicked
  rw [hid]

/-- Witness for claim C10: the correctly signed token with no id claim. -/
theorem c10_gate_id_assertion_panics_witness :
    mwEx.middlewareImpl ⟨.bearer (.wire wNoId)⟩ 0 = .panicked :=
  c10_gate_id_assertion_panics mwEx wNoId 0 rfl rfl

end JwtAuth
